import Mathlib

/-!
Verification of the OpenRouter backend adapter
(`aide/backend/backend_openrouter.py`).

The adapter is a single function `query` that builds a chat-completion
request from an optional system message, an optional user message, an
optional structured-output specification (`FunctionSpec`) and extra
keyword parameters, issues the request, and normalizes the response into
a tuple `(output, req_time, in_tokens, out_tokens, info)`.

Shallow embedding choices:
* The network round trip is abstracted: the completion response that the
  (retry-wrapped) HTTP call would return is passed to `query` as an
  explicit argument, together with the measured elapsed time.
* Python's `json.loads` is abstracted as an explicit argument
  `json_loads : String → Except String JsonValue`; `Except.error` models
  `json.JSONDecodeError`.
* Python dictionaries of keyword parameters are association lists
  `List (String × PyVal)`; `PyVal.pyNone` models Python's `None`.
* Python `assert` failures and the `IndexError` from `choices[0]` are
  modelled as `Except.error` outcomes; log lines written through the
  `aide` logger are collected in a list.
* `choice.message.tool_calls` may be `None` or a list in Python; both
  falsy shapes (`None` and `[]`) are modelled as the empty list, which
  is exactly what the truthiness `assert` tests.
-/

/-- A value passed as a keyword parameter (or stored in the returned
metadata mapping).  `pyNone` models Python `None`; the other
constructors cover the concrete values the claims are about. -/
inductive PyVal where
  | pyNone
  | pyBool (b : Bool)
  | pyInt (n : Int)
  | pyStr (s : String)
  | pyTools (ts : List String)
  | pyToolChoice (c : String)
deriving DecidableEq, Repr

/-- funcy's `notnone` predicate: true iff the value is not Python `None`. -/
def notnone : PyVal → Bool
  | PyVal.pyNone => false
  | _ => true

/-- funcy's `select_values`: keep the dictionary entries whose value
satisfies the predicate (order preserved). -/
def select_values (p : PyVal → Bool) (d : List (String × PyVal)) :
    List (String × PyVal) :=
  d.filter (fun kv => p kv.2)

/-- Python dictionary assignment `d[k] = v`: replace the value in place
if the key is present, otherwise append the binding at the end. -/
def dictSet (d : List (String × PyVal)) (k : String) (v : PyVal) :
    List (String × PyVal) :=
  if d.any (fun kv => kv.1 = k) then
    d.map (fun kv => if kv.1 = k then (k, v) else kv)
  else
    d ++ [(k, v)]

/-- Modelled from the spec: `FunctionSpec` is defined in
`aide/backend/utils.py`, which is not part of the sources; the spec
describes it as a named schema exposing a tool-declaration
representation (`as_openai_tool_dict`) and a tool-choice-forcing
representation (`openai_tool_choice_dict`).  Both representations are
opaque payloads here; only `name` is inspected by the adapter. -/
structure FunctionSpec where
  name : String
  as_openai_tool_dict : String
  openai_tool_choice_dict : String
deriving DecidableEq, Repr

/-- A role/content pair of the request's `messages` array. -/
structure Message where
  role : String
  content : String
deriving DecidableEq, Repr

/-- The fixed provider-routing hint sent as `extra_body`. -/
structure ProviderRouting where
  order : List String
  ignore : List String
deriving DecidableEq, Repr

/-- The constant `extra_body` payload of every request. -/
def openrouterExtraBody : ProviderRouting :=
  { order := ["Fireworks"]
    ignore := ["Together", "DeepInfra", "Hyperbolic"] }

/-- The request handed to `_client.chat.completions.create` (through
`backoff_create`): the constructed messages, the fixed routing hint and
the forwarded keyword parameters. -/
structure Request where
  messages : List Message
  extra_body : ProviderRouting
  kwargs : List (String × PyVal)
deriving DecidableEq, Repr

/-- `tool_call.function` of a response: a name and a raw argument string. -/
structure ToolCallFunction where
  name : String
  arguments : String
deriving DecidableEq, Repr

/-- One tool-call invocation of a response choice. -/
structure ToolCall where
  function : ToolCallFunction
deriving DecidableEq, Repr

/-- `choice.message` of a response: optional text content and the list
of tool calls (Python `None` and `[]` are both modelled as `[]`). -/
structure ChoiceMessage where
  content : Option String
  tool_calls : List ToolCall
deriving DecidableEq, Repr

/-- One choice of a completion response. -/
structure Choice where
  message : ChoiceMessage
deriving DecidableEq, Repr

/-- The `usage` field of a completion response. -/
structure Usage where
  prompt_tokens : Nat
  completion_tokens : Nat
deriving DecidableEq, Repr

/-- A completion response as consumed by the adapter. -/
structure Completion where
  choices : List Choice
  usage : Usage
  system_fingerprint : Option String
  model : String
  created : Nat
deriving DecidableEq, Repr

/-- A JSON value, the result of parsing a tool call's argument string. -/
inductive JsonValue where
  | jnull
  | jbool (b : Bool)
  | jnum (n : Int)
  | jstr (s : String)
  | jarr (xs : List JsonValue)
  | jobj (fields : List (String × JsonValue))
deriving Repr

/-- The normalized output: free text (possibly absent) when no
structured output was requested, otherwise the JSON-parsed tool
arguments. -/
inductive OutputType where
  | text (s : Option String)
  | structured (v : JsonValue)
deriving Repr

/-- One line written through the `aide` logger. -/
inductive LogLevel where
  | info
  | error
deriving DecidableEq, Repr

/-- A logged line: its level and its message. -/
structure LogEntry where
  level : LogLevel
  msg : String
deriving DecidableEq, Repr

/-- The ways `query` fails before returning a value: the `IndexError`
of `completion.choices[0]` on an empty choice list, a Python `assert`
failure, or a re-raised `json.JSONDecodeError`. -/
inductive QueryError where
  | indexError
  | assertionError (msg : String)
  | jsonDecodeError (msg : String)
deriving DecidableEq, Repr

/-- The tuple returned by a successful `query` call. -/
structure QueryResult where
  output : OutputType
  req_time : ℚ
  in_tokens : Nat
  out_tokens : Nat
  info : List (String × PyVal)
deriving Repr

/-- Everything observable about one `query` call: the request sent to
the completion endpoint, the log lines emitted, and either the returned
tuple or the error raised. -/
structure QueryCall where
  request : Request
  log : List LogEntry
  outcome : Except QueryError QueryResult
deriving Repr

/-- The message sequence constructed by `query`:
`[{"role": "user", "content": m} for m in [system_message, user_message] if m]`.
Python truthiness drops both `None` and the empty string. -/
def buildMessages (system_message user_message : Option String) :
    List Message :=
  (([system_message, user_message].filterMap id).filter (fun m => m ≠ "")).map
    (fun m => { role := "user", content := m })

/-- The `info` metadata mapping assembled from the completion response. -/
def infoOf (completion : Completion) : List (String × PyVal) :=
  [("system_fingerprint",
      match completion.system_fingerprint with
      | none => PyVal.pyNone
      | some s => PyVal.pyStr s),
   ("model", PyVal.pyStr completion.model),
   ("created", PyVal.pyInt (completion.created : Int))]

set_option linter.unusedVariables false in
/-- The adapter `query` of `aide/backend/backend_openrouter.py`.

The first five parameters mirror the Python signature
`query(system_message, user_message, func_spec=None,
convert_system_to_user=False, **model_kwargs)`.  The completion
response returned by the HTTP call, the `json.loads` function and the
measured elapsed time are passed explicitly (see the module comment).
The lines of the response-handling `if`/`else` are gathered in `step`,
a pair of the log lines they emit and the outcome they produce. -/
def query (system_message user_message : Option String)
    (func_spec : Option FunctionSpec) (convert_system_to_user : Bool)
    (model_kwargs : List (String × PyVal))
    (completion : Completion)
    (json_loads : String → Except String JsonValue)
    (req_time : ℚ) : QueryCall :=
  let filtered_kwargs := select_values notnone model_kwargs
  -- structured output: inject the tool, force its use, and log it
  let filtered_kwargs :=
    match func_spec with
    | some fs =>
        dictSet
          (dictSet filtered_kwargs "tools" (PyVal.pyTools [fs.as_openai_tool_dict]))
          "tool_choice" (PyVal.pyToolChoice fs.openai_tool_choice_dict)
    | none => filtered_kwargs
  let log0 : List LogEntry :=
    match func_spec with
    | some fs => [⟨LogLevel.info, "Using OpenRouter tool calling for " ++ fs.name⟩]
    | none => []
  let messages := buildMessages system_message user_message
  let request : Request :=
    { messages := messages
      extra_body := openrouterExtraBody
      kwargs := filtered_kwargs }
  let in_tokens := completion.usage.prompt_tokens
  let out_tokens := completion.usage.completion_tokens
  let info := infoOf completion
  let step : List LogEntry × Except QueryError QueryResult :=
    match completion.choices with
    | [] => ([], Except.error QueryError.indexError)
    | choice :: _ =>
      match func_spec with
      | none =>
          ([],
           Except.ok
             { output := OutputType.text choice.message.content
               req_time := req_time
               in_tokens := in_tokens
               out_tokens := out_tokens
               info := info })
      | some fs =>
        match choice.message.tool_calls with
        | [] =>
            ([],
             Except.error (QueryError.assertionError
               "tool_calls is empty, not a tool call response"))
        | tc :: _ =>
          if tc.function.name = fs.name then
            match json_loads tc.function.arguments with
            | Except.ok v =>
                ([⟨LogLevel.info,
                   "Successfully parsed tool call response for " ++ fs.name⟩],
                 Except.ok
                   { output := OutputType.structured v
                     req_time := req_time
                     in_tokens := in_tokens
                     out_tokens := out_tokens
                     info := info })
            | Except.error e =>
                ([⟨LogLevel.error,
                   "Error decoding function arguments: " ++ tc.function.arguments⟩],
                 Except.error (QueryError.jsonDecodeError e))
          else
            ([],
             Except.error (QueryError.assertionError
               ("Function name mismatch: expected " ++ fs.name ++ ", got "
                 ++ tc.function.name)))
  { request := request, log := log0 ++ step.1, outcome := step.2 }

/-- The process-wide client-initialization state: whether the
`@once`-guarded setup already ran, and how many times the client
constructor actually executed. -/
structure ClientState where
  setup_done : Bool
  client_inits : Nat
deriving DecidableEq, Repr

/-- `_setup_openrouter_client`, guarded by funcy's `@once` decorator:
on the first call it constructs the client (counted in `client_inits`);
every later call is a no-op. -/
def setup_openrouter_client (s : ClientState) : ClientState :=
  if s.setup_done then s else { setup_done := true, client_inits := s.client_inits + 1 }

/-- The process state before any call was made. -/
def initialClientState : ClientState :=
  { setup_done := false, client_inits := 0 }

/-- The message sequence as the spec words it: one user-role entry per
non-empty input, the system-derived entry first (used to compare the
code's construction against the spec in C2). -/
def specMessageSequence (system_message user_message : Option String) :
    List Message :=
  (match system_message with
   | some s => if s = "" then [] else [{ role := "user", content := s }]
   | none => []) ++
  (match user_message with
   | some s => if s = "" then [] else [{ role := "user", content := s }]
   | none => [])

/-- A sample structured-output specification for concrete instances. -/
def sampleSpec : FunctionSpec :=
  { name := "lookup", as_openai_tool_dict := "tooldecl", openai_tool_choice_dict := "toolchoice" }

/-- A sample completion response carrying one tool call named `lookup`. -/
def sampleToolCompletion : Completion :=
  { choices := [⟨⟨none, [⟨⟨"lookup", "42"⟩⟩]⟩⟩]
    usage := { prompt_tokens := 3, completion_tokens := 1 }
    system_fingerprint := none
    model := "m"
    created := 5 }

/-- A sample `json.loads` that accepts every payload as the number 42. -/
def jsonLoadsConst : String → Except String JsonValue :=
  fun _ => Except.ok (JsonValue.jnum 42)

/-- A sample `json.loads` that rejects every payload. -/
def jsonLoadsFail : String → Except String JsonValue :=
  fun _ => Except.error "Expecting value"

/-- A sample completion response carrying plain text content. -/
def sampleTextCompletion : Completion :=
  { choices := [⟨⟨some "hello", []⟩⟩]
    usage := { prompt_tokens := 3, completion_tokens := 1 }
    system_fingerprint := none
    model := "m"
    created := 5 }

/-- The tuple the adapter returns for `sampleTextCompletion`. -/
def sampleTextResult : QueryResult :=
  { output := OutputType.text (some "hello")
    req_time := 0
    in_tokens := 3
    out_tokens := 1
    info := infoOf sampleTextCompletion }

/-- The effect of one `query` invocation on the process-wide client
state: the first statement of `query` calls `_setup_openrouter_client()`
and nothing else touches that state. -/
def queryClientEffect : ClientState → ClientState :=
  setup_openrouter_client

lemma mem_dictSet_of_key_ne {d : List (String × PyVal)} {k : String} {v : PyVal}
    (kk : String) (vv : PyVal) (hmem : (k, v) ∈ d) (hne : k ≠ kk) :
    (k, v) ∈ dictSet d kk vv := by
  unfold dictSet
  split
  · exact List.mem_map.mpr ⟨(k, v), hmem, by simp [hne]⟩
  · exact List.mem_append_left _ hmem

lemma queryClientEffect_iterate_closed (n : Nat) :
    (queryClientEffect)^[n] initialClientState
      = if n = 0 then initialClientState else ⟨true, 1⟩ := by
  induction n with
  | zero => rfl
  | succ k ih =>
      rw [Function.iterate_succ_apply', ih]
      rcases Nat.eq_zero_or_pos k with hk | hk
      · subst hk
        simp [queryClientEffect, setup_openrouter_client, initialClientState]
      · rw [if_neg (Nat.pos_iff_ne_zero.mp hk), if_neg (Nat.succ_ne_zero k)]
        simp [queryClientEffect, setup_openrouter_client]

/-- C1: whenever a structured-output specification is supplied and the
response's first choice has an empty tool-call list, or the first tool
call's function name differs from the specification's name, `query`
fails with an assertion error before returning a value. -/
theorem query_tool_call_contract (sm um : Option String) (fs : FunctionSpec)
    (b : Bool) (kw : List (String × PyVal)) (c : Completion)
    (jl : String → Except String JsonValue) (t : ℚ)
    (choice : Choice) (rest : List Choice)
    (hc : c.choices = choice :: rest)
    (hbad : choice.message.tool_calls = [] ∨
      ∃ tc tcs, choice.message.tool_calls = tc :: tcs ∧
        tc.function.name ≠ fs.name) :
    ∃ msg, (query sm um (some fs) b kw c jl t).outcome
      = Except.error (QueryError.assertionError msg) := by
  rcases hbad with hemp | ⟨tc, tcs, htc, hne⟩
  · exact ⟨"tool_calls is empty, not a tool call response",
      by simp [query, hc, hemp]⟩
  · exact ⟨"Function name mismatch: expected " ++ fs.name ++ ", got "
        ++ tc.function.name,
      by simp [query, hc, htc, hne]⟩

/-- C1 witness: a concrete call with an empty tool-call list fails with
an assertion error. -/
theorem query_tool_call_contract_witness :
    ∃ msg, (query none (some "hi") (some sampleSpec) false []
        ⟨[⟨⟨none, []⟩⟩], ⟨3, 1⟩, none, "m", 5⟩ jsonLoadsConst 0).outcome
      = Except.error (QueryError.assertionError msg) :=
  query_tool_call_contract none (some "hi") sampleSpec false []
    ⟨[⟨⟨none, []⟩⟩], ⟨3, 1⟩, none, "m", 5⟩ jsonLoadsConst 0
    ⟨⟨none, []⟩⟩ [] rfl (Or.inl rfl)

/-- C2: the constructed message sequence has exactly one user-role entry
per non-empty input, in the fixed order system-derived before
user-derived, every entry has role "user", and it is empty when both
inputs are empty or absent. -/
theorem query_messages_user_role_order (sm um : Option String)
    (fs : Option FunctionSpec) (b : Bool) (kw : List (String × PyVal))
    (c : Completion) (jl : String → Except String JsonValue) (t : ℚ) :
    (query sm um fs b kw c jl t).request.messages = specMessageSequence sm um ∧
    ∀ m ∈ (query sm um fs b kw c jl t).request.messages, m.role = "user" := by
  constructor
  · show buildMessages sm um = specMessageSequence sm um
    rcases sm with _ | s <;> rcases um with _ | u <;>
      simp [buildMessages, specMessageSequence] <;>
      split_ifs <;> simp_all
  · intro m hm
    have hm' : m ∈ buildMessages sm um := hm
    simp only [buildMessages, List.mem_map] at hm'
    obtain ⟨s, _, rfl⟩ := hm'
    rfl

/-- C3: when a structured-output specification is supplied, the first
tool call's name matches, and its argument string parses as JSON, the
returned output is the parsed JSON value. -/
theorem query_structured_output_parses_json (sm um : Option String)
    (fs : FunctionSpec) (b : Bool) (kw : List (String × PyVal))
    (c : Completion) (jl : String → Except String JsonValue) (t : ℚ)
    (choice : Choice) (rest : List Choice) (tc : ToolCall) (tcs : List ToolCall)
    (v : JsonValue)
    (hc : c.choices = choice :: rest)
    (htc : choice.message.tool_calls = tc :: tcs)
    (hname : tc.function.name = fs.name)
    (hj : jl tc.function.arguments = Except.ok v) :
    ∃ r, (query sm um (some fs) b kw c jl t).outcome = Except.ok r ∧
      r.output = OutputType.structured v := by
  refine ⟨{ output := OutputType.structured v, req_time := t,
            in_tokens := c.usage.prompt_tokens,
            out_tokens := c.usage.completion_tokens,
            info := infoOf c }, ?_, rfl⟩
  simp [query, hc, htc, hname, hj]

/-- C3 witness: a concrete matching tool call whose arguments parse as
the number 42 yields that parsed value as output. -/
theorem query_structured_output_parses_json_witness :
    ∃ r, (query none (some "hi") (some sampleSpec) false []
        sampleToolCompletion jsonLoadsConst 0).outcome = Except.ok r ∧
      r.output = OutputType.structured (JsonValue.jnum 42) :=
  query_structured_output_parses_json none (some "hi") sampleSpec false []
    sampleToolCompletion jsonLoadsConst 0
    ⟨⟨none, [⟨⟨"lookup", "42"⟩⟩]⟩⟩ [] ⟨⟨"lookup", "42"⟩⟩ [] (JsonValue.jnum 42)
    rfl rfl rfl rfl

/-- C4: when no structured-output specification is supplied, the
returned output is exactly the first choice's message content, including
an absent (`None`) content passed through unchanged. -/
theorem query_plain_output_passthrough (sm um : Option String)
    (b : Bool) (kw : List (String × PyVal)) (c : Completion)
    (jl : String → Except String JsonValue) (t : ℚ)
    (choice : Choice) (rest : List Choice)
    (hc : c.choices = choice :: rest) :
    ∃ r, (query sm um none b kw c jl t).outcome = Except.ok r ∧
      r.output = OutputType.text choice.message.content := by
  refine ⟨{ output := OutputType.text choice.message.content, req_time := t,
            in_tokens := c.usage.prompt_tokens,
            out_tokens := c.usage.completion_tokens,
            info := infoOf c }, ?_, rfl⟩
  simp [query, hc]

/-- C4 witness: a concrete call without a specification passes an absent
content through as the output. -/
theorem query_plain_output_passthrough_witness :
    ∃ r, (query (some "sys") (some "hi") none false []
        ⟨[⟨⟨none, []⟩⟩], ⟨3, 1⟩, none, "m", 5⟩ jsonLoadsConst 0).outcome
        = Except.ok r ∧
      r.output = OutputType.text none :=
  query_plain_output_passthrough (some "sys") (some "hi") false []
    ⟨[⟨⟨none, []⟩⟩], ⟨3, 1⟩, none, "m", 5⟩ jsonLoadsConst 0
    ⟨⟨none, []⟩⟩ [] rfl

/-- C5: when the first tool call's name matches but its argument string
fails to parse as JSON, `query` logs an error line containing the raw
argument string and re-raises the JSON-decoding error. -/
theorem query_json_decode_error_logged (sm um : Option String)
    (fs : FunctionSpec) (b : Bool) (kw : List (String × PyVal))
    (c : Completion) (jl : String → Except String JsonValue) (t : ℚ)
    (choice : Choice) (rest : List Choice) (tc : ToolCall) (tcs : List ToolCall)
    (e : String)
    (hc : c.choices = choice :: rest)
    (htc : choice.message.tool_calls = tc :: tcs)
    (hname : tc.function.name = fs.name)
    (hj : jl tc.function.arguments = Except.error e) :
    (query sm um (some fs) b kw c jl t).outcome
      = Except.error (QueryError.jsonDecodeError e) ∧
    (⟨LogLevel.error,
        "Error decoding function arguments: " ++ tc.function.arguments⟩ : LogEntry)
      ∈ (query sm um (some fs) b kw c jl t).log := by
  constructor
  · simp [query, hc, htc, hname, hj]
  · simp [query, hc, htc, hname, hj]

/-- C5 witness: a concrete matching tool call with unparseable arguments
raises the decoding error and logs the raw argument string. -/
theorem query_json_decode_error_logged_witness :
    (query none (some "hi") (some sampleSpec) false []
        sampleToolCompletion jsonLoadsFail 0).outcome
      = Except.error (QueryError.jsonDecodeError "Expecting value") ∧
    (⟨LogLevel.error, "Error decoding function arguments: " ++ "42"⟩ : LogEntry)
      ∈ (query none (some "hi") (some sampleSpec) false []
          sampleToolCompletion jsonLoadsFail 0).log :=
  query_json_decode_error_logged none (some "hi") sampleSpec false []
    sampleToolCompletion jsonLoadsFail 0
    ⟨⟨none, [⟨⟨"lookup", "42"⟩⟩]⟩⟩ [] ⟨⟨"lookup", "42"⟩⟩ [] "Expecting value"
    rfl rfl rfl rfl

/-- C6 counterexample: the claim "all remaining parameters are forwarded
verbatim" fails when a structured-output specification is supplied and a
parameter is named `tools`: the parameter's value is not `None`, yet the
forwarded binding is overwritten by the injected tool declaration. -/
theorem query_kwargs_verbatim_counterexample :
    notnone (PyVal.pyStr "x") = true ∧
    ("tools", PyVal.pyStr "x") ∈ [(("tools" : String), PyVal.pyStr "x")] ∧
    ("tools", PyVal.pyStr "x") ∉
      (query none (some "hi") (some sampleSpec) false
        [("tools", PyVal.pyStr "x")] sampleToolCompletion
        jsonLoadsConst 0).request.kwargs := by
  refine ⟨rfl, by simp, by decide⟩

/-- C6 amended: parameters whose value is unset (`None`) are removed and
the remaining parameters are forwarded verbatim and in order, except
that when a structured-output specification is supplied the reserved
keys `tools` and `tool_choice` are set to the specification's entries;
for parameter sets avoiding those two keys, the forwarded non-reserved
bindings are exactly the non-`None` input bindings. -/
theorem query_kwargs_filter_forward (sm um : Option String)
    (fs : Option FunctionSpec) (b : Bool) (kw : List (String × PyVal))
    (c : Completion) (jl : String → Except String JsonValue) (t : ℚ)
    (hres : ∀ kv ∈ kw, kv.1 ≠ "tools" ∧ kv.1 ≠ "tool_choice") :
    ((query sm um fs b kw c jl t).request.kwargs).filter
        (fun kv => kv.1 != "tools" && kv.1 != "tool_choice")
      = kw.filter (fun kv => notnone kv.2) := by
  have hF : ∀ kv ∈ select_values notnone kw,
      kv.1 ≠ "tools" ∧ kv.1 ≠ "tool_choice" :=
    fun kv hkv => hres kv (List.mem_of_mem_filter hkv)
  have hself : (select_values notnone kw).filter
      (fun kv => kv.1 != "tools" && kv.1 != "tool_choice")
      = select_values notnone kw := by
    rw [List.filter_eq_self]
    intro kv hkv
    obtain ⟨h1, h2⟩ := hF kv hkv
    simp [h1, h2]
  rcases fs with _ | f
  · exact hself
  · have hany1 : ((select_values notnone kw).any (fun kv => kv.1 = "tools")) = false := by
      simp only [List.any_eq_false]
      intro kv hkv
      simp [(hF kv hkv).1]
    have h1 : dictSet (select_values notnone kw) "tools"
        (PyVal.pyTools [f.as_openai_tool_dict])
        = select_values notnone kw ++ [("tools", PyVal.pyTools [f.as_openai_tool_dict])] := by
      unfold dictSet
      rw [if_neg (by simp [hany1])]
    have hany2 : ((select_values notnone kw
        ++ [("tools", PyVal.pyTools [f.as_openai_tool_dict])]).any
        (fun kv => kv.1 = "tool_choice")) = false := by
      simp only [List.any_eq_false, List.mem_append]
      rintro kv (hkv | hkv)
      · simp [(hF kv hkv).2]
      · simp at hkv
        subst hkv
        simp
    have h2 : dictSet (select_values notnone kw
          ++ [("tools", PyVal.pyTools [f.as_openai_tool_dict])])
        "tool_choice" (PyVal.pyToolChoice f.openai_tool_choice_dict)
        = select_values notnone kw
          ++ [("tools", PyVal.pyTools [f.as_openai_tool_dict])]
          ++ [("tool_choice", PyVal.pyToolChoice f.openai_tool_choice_dict)] := by
      unfold dictSet
      rw [if_neg (by simp [hany2])]
    show (dictSet (dictSet (select_values notnone kw) "tools"
        (PyVal.pyTools [f.as_openai_tool_dict]))
        "tool_choice" (PyVal.pyToolChoice f.openai_tool_choice_dict)).filter
        (fun kv => kv.1 != "tools" && kv.1 != "tool_choice")
      = kw.filter (fun kv => notnone kv.2)
    rw [h1, h2, List.filter_append, List.filter_append, hself]
    simp [select_values]

/-- C6 witness: with a spec present and kwargs `temperature=0`,
`top_p=None`, the forwarded non-reserved bindings are exactly
`temperature=0`. -/
theorem query_kwargs_filter_forward_witness :
    (∀ kv ∈ [(("temperature" : String), PyVal.pyInt 0), ("top_p", PyVal.pyNone)],
      kv.1 ≠ "tools" ∧ kv.1 ≠ "tool_choice") ∧
    ((query none (some "hi") (some sampleSpec) false
        [("temperature", PyVal.pyInt 0), ("top_p", PyVal.pyNone)]
        sampleToolCompletion jsonLoadsConst 0).request.kwargs).filter
        (fun kv => kv.1 != "tools" && kv.1 != "tool_choice")
      = [("temperature", PyVal.pyInt 0)] :=
  ⟨by decide,
   (query_kwargs_filter_forward none (some "hi") (some sampleSpec) false
      [("temperature", PyVal.pyInt 0), ("top_p", PyVal.pyNone)]
      sampleToolCompletion jsonLoadsConst 0 (by decide)).trans (by decide)⟩

/-- C7: every successful call returns the response's
`usage.prompt_tokens` as input token count, `usage.completion_tokens` as
output token count, and a metadata mapping with exactly the keys
`system_fingerprint`, `model`, `created`, each taken from the
corresponding response field. -/
theorem query_tokens_and_info (sm um : Option String)
    (fs : Option FunctionSpec) (b : Bool) (kw : List (String × PyVal))
    (c : Completion) (jl : String → Except String JsonValue) (t : ℚ)
    (r : QueryResult)
    (h : (query sm um fs b kw c jl t).outcome = Except.ok r) :
    r.in_tokens = c.usage.prompt_tokens ∧
    r.out_tokens = c.usage.completion_tokens ∧
    r.info = infoOf c ∧
    r.info.map Prod.fst = ["system_fingerprint", "model", "created"] := by
  rcases hc : c.choices with _ | ⟨choice, rest⟩
  · simp [query, hc] at h
  · rcases fs with _ | f
    · simp only [query, hc] at h
      obtain rfl : r = _ := (Except.ok.injEq _ _).mp h.symm
      refine ⟨rfl, rfl, rfl, ?_⟩
      simp [infoOf]
    · rcases htc : choice.message.tool_calls with _ | ⟨tc, tcs⟩
      · simp [query, hc, htc] at h
      · by_cases hn : tc.function.name = f.name
        · rcases hj : jl tc.function.arguments with e | v
          · simp [query, hc, htc, hn, hj] at h
          · simp only [query, hc, htc, hn, hj] at h
            simp only [if_pos] at h
            obtain rfl : r = _ := (Except.ok.injEq _ _).mp h.symm
            refine ⟨rfl, rfl, rfl, ?_⟩
            simp [infoOf]
        · simp [query, hc, htc, hn] at h

/-- C7 witness: a concrete successful plain-text call returns token
counts 3 and 1 and the three metadata keys. -/
theorem query_tokens_and_info_witness :
    sampleTextResult.in_tokens = sampleTextCompletion.usage.prompt_tokens ∧
    sampleTextResult.out_tokens = sampleTextCompletion.usage.completion_tokens ∧
    sampleTextResult.info = infoOf sampleTextCompletion ∧
    sampleTextResult.info.map Prod.fst
      = ["system_fingerprint", "model", "created"] :=
  query_tokens_and_info none (some "hi") none false [] sampleTextCompletion
    jsonLoadsConst 0 sampleTextResult rfl

/-- C8: over any number of `query` invocations in one process, the
client construction guarded by `@once` executes at most once. -/
theorem setup_client_at_most_once (n : Nat) :
    ((queryClientEffect)^[n] initialClientState).client_inits ≤ 1 := by
  rw [queryClientEffect_iterate_closed]
  split_ifs <;> simp [initialClientState]

/-- C10 counterexample: a falsy non-`None` parameter named `tool_choice`
survives the filter but is overwritten when a structured-output
specification is supplied, so it is not forwarded verbatim. -/
theorem query_falsy_kwarg_overwritten_counterexample :
    notnone (PyVal.pyBool false) = true ∧
    ("tool_choice", PyVal.pyBool false)
      ∈ [(("tool_choice" : String), PyVal.pyBool false)] ∧
    ("tool_choice", PyVal.pyBool false) ∉
      (query none (some "hi") (some sampleSpec) false
        [("tool_choice", PyVal.pyBool false)]
        sampleToolCompletion jsonLoadsConst 0).request.kwargs := by
  refine ⟨rfl, by simp, by decide⟩

/-- C10 amended: the filter removes only parameters whose value is
exactly `None`; every parameter with a falsy but non-`None` value (0,
the empty string, `False`, ...) is kept and forwarded verbatim, except
that the reserved keys `tools` and `tool_choice` are overwritten when a
structured-output specification is supplied. -/
theorem query_falsy_kwargs_kept (sm um : Option String)
    (fs : Option FunctionSpec) (b : Bool) (kw : List (String × PyVal))
    (c : Completion) (jl : String → Except String JsonValue) (t : ℚ)
    (k : String) (v : PyVal)
    (hmem : (k, v) ∈ kw) (hnn : v ≠ PyVal.pyNone)
    (hres : fs = none ∨ (k ≠ "tools" ∧ k ≠ "tool_choice")) :
    (k, v) ∈ (query sm um fs b kw c jl t).request.kwargs := by
  have hF : (k, v) ∈ select_values notnone kw := by
    refine List.mem_filter.mpr ⟨hmem, ?_⟩
    cases v <;> simp [notnone] at hnn ⊢
  rcases fs with _ | f
  · exact hF
  · rcases hres with hres | ⟨h1, h2⟩
    · exact absurd hres (by simp)
    · exact mem_dictSet_of_key_ne "tool_choice" _
        (mem_dictSet_of_key_ne "tools" _ hF h1) h2

/-- C10 witness: the falsy parameter `temperature=0` is kept and
forwarded even though a structured-output specification is supplied. -/
theorem query_falsy_kwargs_kept_witness :
    ("temperature", PyVal.pyInt 0)
      ∈ (query none (some "hi") (some sampleSpec) false
          [("temperature", PyVal.pyInt 0)]
          sampleToolCompletion jsonLoadsConst 0).request.kwargs :=
  query_falsy_kwargs_kept none (some "hi") (some sampleSpec) false
    [("temperature", PyVal.pyInt 0)] sampleToolCompletion jsonLoadsConst 0
    "temperature" (PyVal.pyInt 0) (by simp) (by simp)
    (Or.inr (by simp))

/-- C9: the `convert_system_to_user` parameter has no effect: two calls
differing only in its value produce the identical request, log and
outcome. -/
theorem query_ignores_convert_system_to_user (sm um : Option String)
    (fs : Option FunctionSpec) (b1 b2 : Bool) (kw : List (String × PyVal))
    (c : Completion) (jl : String → Except String JsonValue) (t : ℚ) :
    query sm um fs b1 kw c jl t = query sm um fs b2 kw c jl t := rfl
